import Mathlib

/-!
Verification of the SlideSonic-2025 encoding progress monitor
(`src/monitor_encoding.py`) against its natural-language specification.

The monitor observes an external encoding job through a growing text log and
an output file.  This file shallowly embeds the decision logic of the module:
the metric extractors (`get_encoding_speed`, the time-extraction part of
`get_progress_info`), the progress-percentage computation, the log tail
reader (`read_latest_log_lines`), the liveness check (`get_ffmpeg_processes`),
and the completion-detection state machine of the poll loop in
`display_progress`.  Strings are embedded as `List Char`, Python floats that
arise from parsing decimal text as `ℚ` (every value the module parses is a
finite decimal, so this is exact), byte sizes as `Nat`, and the ambient
system (process table, subprocess results) as explicit records.  Rendering,
sleeping and ANSI styling are not modelled: they do not affect any decision.
-/

attribute [local semireducible] Rat.mul Rat.inv Rat.add

/-! ### Character classes and low-level string helpers

Python `re` character classes and string operations used by the module,
restricted to ASCII (the log lines the module parses are ASCII). -/

/-- Python `\s` for ASCII text: the whitespace characters of `re`. -/
def isPySpace (c : Char) : Bool :=
  c = ' ' || c = '\t' || c = '\n' || c = '\r' || c = '\x0b' || c = '\x0c'

/-- Membership in the regex class `[0-9.]` (from `speed=\s*([0-9.]+)`). -/
def isDigitDot (c : Char) : Bool := c.isDigit || c = '.'

/-- Membership in the regex class `[0-9:.]` (from `time=\s*([0-9:.]+)`). -/
def isDigitColonDot (c : Char) : Bool := c.isDigit || c = ':' || c = '.'

/-- Match a literal character sequence at the head of the input, returning
the remainder on success (the literal parts of the regexes). -/
def matchLit : List Char → List Char → Option (List Char)
  | [], rest => some rest
  | _, [] => none
  | a :: as, b :: bs => if a = b then matchLit as bs else none

/-- Whether `sub` occurs at the head of `s`. -/
def headIsSub (sub s : List Char) : Bool :=
  match matchLit sub s with
  | some _ => true
  | none => false

/-- Python's `sub in s` substring test. -/
def containsSub (sub : List Char) : List Char → Bool
  | [] => sub.isEmpty
  | c :: cs => headIsSub sub (c :: cs) || containsSub sub cs

/-- `re.search` over a line: try the position matcher `f` at every start
position, leftmost first, as Python's `re.search` does. -/
def searchPat (f : List Char → Option (List Char)) : List Char → Option (List Char)
  | [] => f []
  | c :: cs =>
    match f (c :: cs) with
    | some r => some r
    | none => searchPat f cs

/-- Python `str.split(sep)` semantics on character lists:
`"".split(sep) = [""]`, separators delimit possibly-empty fields. -/
def splitOnChar (sep : Char) : List Char → List (List Char)
  | [] => [[]]
  | c :: cs =>
    let r := splitOnChar sep cs
    if c = sep then [] :: r
    else
      match r with
      | [] => [[c]]
      | h :: t => (c :: h) :: t

/-- Numeric value of a digit string (most significant first). -/
def digitsVal (ds : List Char) : Nat :=
  ds.foldl (fun a c => a * 10 + (c.toNat - 48)) 0

/-- Python `float()` applied to a string drawn from the class `[0-9.]`
(plus, for the `'0.' + parts[1]` call sites, possibly stray non-digits such
as `:`): defined exactly when the text has at most one dot, only digits
otherwise, and at least one character besides a lone dot; `"1."`, `".5"`,
`"007"` parse, `""`, `"."`, `"1.2.3"`, `"2:3"` raise `ValueError` (here:
`none`).  The value is returned exactly as a rational. -/
def pyFloat (cs : List Char) : Option ℚ :=
  let ip := cs.takeWhile (fun c => c ≠ '.')
  let rest := cs.dropWhile (fun c => c ≠ '.')
  match rest with
  | [] =>
    if ip = [] then none
    else if ip.all Char.isDigit then some (digitsVal ip) else none
  | _ :: frac =>
    if frac.any (fun c => c = '.') then none
    else if ip = [] ∧ frac = [] then none
    else if (ip ++ frac).all Char.isDigit then
      some ((digitsVal ip : ℚ) + (digitsVal frac : ℚ) / ((10 : ℚ) ^ frac.length))
    else none

/-- Python `int()` applied to a whitespace-free token (the PID column of
`ps aux` output): an optional sign followed by at least one digit. -/
def pyInt : List Char → Option Int
  | '-' :: ds =>
    if ds ≠ [] ∧ ds.all Char.isDigit then some (-(digitsVal ds : Int)) else none
  | '+' :: ds =>
    if ds ≠ [] ∧ ds.all Char.isDigit then some ((digitsVal ds : Int)) else none
  | ds =>
    if ds ≠ [] ∧ ds.all Char.isDigit then some ((digitsVal ds : Int)) else none

/-- Python `str.split()` with no argument: split on whitespace runs,
discarding empty fields (used on `ps aux` lines). -/
def splitWsAux : List Char → List Char → List (List Char)
  | [], acc => if acc = [] then [] else [acc.reverse]
  | c :: cs, acc =>
    if isPySpace c then
      if acc = [] then splitWsAux cs []
      else acc.reverse :: splitWsAux cs []
    else splitWsAux cs (c :: acc)

/-- Python `str.split()` with no argument. -/
def splitWs (cs : List Char) : List (List Char) := splitWsAux cs []

/-- ASCII lowering, Python `str.lower()` on the process names involved. -/
def lowerChars (cs : List Char) : List Char := cs.map Char.toLower

/-- Python `str.splitlines()` restricted to the boundaries that occur in the
encoder's output (`\n`, `\r`, `\r\n`, `\x0b`, `\x0c`); a trailing boundary
does not produce a final empty line. -/
def splitlinesAux : List Char → List Char → List (List Char)
  | [], acc => if acc = [] then [] else [acc.reverse]
  | '\r' :: '\n' :: cs, acc => acc.reverse :: splitlinesAux cs []
  | '\r' :: cs, acc => acc.reverse :: splitlinesAux cs []
  | '\n' :: cs, acc => acc.reverse :: splitlinesAux cs []
  | '\x0b' :: cs, acc => acc.reverse :: splitlinesAux cs []
  | '\x0c' :: cs, acc => acc.reverse :: splitlinesAux cs []
  | c :: cs, acc => splitlinesAux cs (c :: acc)

/-- Python `str.splitlines()`. -/
def splitlines (cs : List Char) : List (List Char) := splitlinesAux cs []

/-- First `some` produced by `f` along a list (the shape of the
`for line in reversed(recent_lines)` scans of the module). -/
def firstSome {α β : Type} (f : α → Option β) : List α → Option β
  | [] => none
  | x :: xs =>
    match f x with
    | some b => some b
    | none => firstSome f xs

/-! ### Progress Estimator (`get_progress_info`, lines 450-458)

The percentage computation applied to the extracted video time and the
resolved total duration, exactly as written in the source:

    if time_seconds > 0 and total_duration > 0:
        raw_progress = (time_seconds / total_duration) * 100
        info["progress_percent"] = min(95.0, raw_progress)
    else:
        info["progress_percent"] = min(10.0, time_seconds / 5.0) if time_seconds > 0 else 0
-/

/-- Percent-complete computation of `get_progress_info` (lines 450-458). -/
def progress_percent (time_seconds total_duration : ℚ) : ℚ :=
  if 0 < time_seconds ∧ 0 < total_duration then
    min 95 ((time_seconds / total_duration) * 100)
  else if 0 < time_seconds then min 10 (time_seconds / 5) else 0

/-! ### Metric Extractor, speed (`get_encoding_speed`, lines 333-366)

For each line, the source first checks `"speed=" in line`, then tries
pattern 1 `speed=\s*([0-9.]+)x`; if that pattern matches but `float` fails
it `continue`s to the next (older) line without trying pattern 2; if
pattern 1 does not match it tries pattern 2 `speed=\s*([0-9.]+)\s`.  A
successful parse is returned capped at 8.0.  If no line yields a value the
function returns 0. -/

/-- Position matcher for `speed=\s*([0-9.]+)x`.  Backtracking cannot help
here: `x` is not in `[0-9.]` or `\s`, so maximal munch is exact. -/
def matchSpeed1At (cs : List Char) : Option (List Char) :=
  match matchLit "speed=".toList cs with
  | none => none
  | some rest =>
    let rest2 := rest.dropWhile isPySpace
    match rest2.takeWhile isDigitDot, rest2.dropWhile isDigitDot with
    | [], _ => none
    | grp, 'x' :: _ => some grp
    | _, _ => none

/-- Position matcher for `speed=\s*([0-9.]+)\s` (the group must be followed
by one whitespace character). -/
def matchSpeed2At (cs : List Char) : Option (List Char) :=
  match matchLit "speed=".toList cs with
  | none => none
  | some rest =>
    let rest2 := rest.dropWhile isPySpace
    match rest2.takeWhile isDigitDot, rest2.dropWhile isDigitDot with
    | [], _ => none
    | grp, d :: _ => if isPySpace d then some grp else none
    | _, [] => none

/-- The speed value `get_encoding_speed` derives from a single line
(lines 343-362), `none` meaning the scan continues to the next older line.
A line whose `speed=` fragment matches pattern 1 but fails `float()` is
skipped entirely (the `continue` on line 353 moves to the next line without
trying pattern 2). -/
def extractSpeedLine (line : List Char) : Option ℚ :=
  if containsSub "speed=".toList line then
    match searchPat matchSpeed1At line with
    | some grp =>
      match pyFloat grp with
      | some speed => some (min 8 speed)
      | none => none
    | none =>
      match searchPat matchSpeed2At line with
      | some grp =>
        match pyFloat grp with
        | some speed => some (min 8 speed)
        | none => none
      | none => none
  else none

/-- `get_encoding_speed` on an already-read tail (lines 338-364): scan the
lines from most recent to oldest, return the first extracted value, else 0.
Both the empty-tail early return and the fall-through return yield 0. -/
def get_encoding_speed_lines (recent_lines : List (List Char)) : ℚ :=
  match firstSome extractSpeedLine recent_lines.reverse with
  | some v => v
  | none => 0

/-! ### Metric Extractor, time (`get_progress_info`, lines 379-398) -/

/-- Position matcher for `time=\s*([0-9:.]+)`. -/
def matchTimeAt (cs : List Char) : Option (List Char) :=
  match matchLit "time=".toList cs with
  | none => none
  | some rest =>
    match (rest.dropWhile isPySpace).takeWhile isDigitColonDot with
    | [] => none
    | grp => some grp

/-- `h, m, s = map(float, base.split(':'))` followed by
`h * 3600 + m * 60 + s`: defined only when the split yields exactly three
`float`-parseable fields (any other shape raises and is caught, yielding
time 0 in `parseTimeStr`). -/
def parseHMS (base : List Char) : Option ℚ :=
  match splitOnChar ':' base with
  | [h, m, s] =>
    match pyFloat h, pyFloat m, pyFloat s with
    | some a, some b, some c => some (a * 3600 + b * 60 + c)
    | _, _, _ => none
  | _ => none

/-- The `try` block of lines 386-397 applied to the captured time text:
with a dot, `parts = text.split('.')`; `ms = float('0.' + parts[1])` when
there is a second part; the `HH:MM:SS` base is summed into seconds and `ms`
added.  Any failure inside the block is caught and yields 0 (line 397). -/
def parseTimeStr (t : List Char) : ℚ :=
  if t.any (fun c => c = '.') then
    match splitOnChar '.' t with
    | [] => 0
    | base :: rest =>
      let msOpt : Option ℚ :=
        match rest with
        | [] => some 0
        | p1 :: _ => pyFloat ('0' :: '.' :: p1)
      match msOpt, parseHMS base with
      | some ms, some hms => hms + ms
      | _, _ => 0
  else
    match parseHMS t with
    | some v => v
    | none => 0

/-- Time text and value the per-line scan of lines 382-398 derives from one
line: the first (leftmost) `time=` regex match, if any, with its parse. -/
def extractTimeLine (line : List Char) : Option (List Char × ℚ) :=
  match searchPat matchTimeAt line with
  | some grp => some (grp, parseTimeStr grp)
  | none => none

/-- The time-extraction loop of `get_progress_info` (lines 380-398): scan
the tail from most recent to oldest and `break` at the first line whose
`time=` regex matches (even when its numeric parse fails, in which case the
value is 0); defaults are `"00:00:00"` and 0. -/
def extractTime (recent_lines : List (List Char)) : List Char × ℚ :=
  match firstSome extractTimeLine recent_lines.reverse with
  | some p => p
  | none => ("00:00:00".toList, 0)

/-! ### Log Tail Reader (`read_latest_log_lines`, lines 299-331)

The file system at one poll is modelled by what the reader observes of the
log: whether `os.path.exists` succeeds, the `os.path.getsize` result, and
the text `open`/`read` delivers — where `none` stands for the file
vanishing between the size check and the read (or any other I/O failure
inside the `try`). -/

/-- Observation of the log file during one poll. -/
structure FileState where
  present : Bool
  size : Nat
  content : Option (List Char)
deriving DecidableEq

/-- The `try` body of `read_latest_log_lines` (lines 302-328): an
`Except`-valued computation whose `error` models a raised exception.  Small
files are read whole; large files are read from `max(0, size - 50000)`, the
possibly-truncated first line is discarded when the seek position is
positive, and only the last `max_lines` lines are kept. -/
def read_latest_log_lines_body (f : FileState) (max_lines : Nat) :
    Except Unit (List (List Char)) :=
  if f.present = false then .ok []
  else if f.size = 0 then .ok []
  else
    match f.content with
    | none => .error ()
    | some cs =>
      if f.size < 50000 then .ok (splitlines cs)
      else
        let pos := f.size - 50000
        let rest := cs.drop pos
        let rest2 := if 0 < pos then
          match (rest.dropWhile (fun c => c ≠ '\n')) with
          | [] => []
          | _ :: tl => tl
          else rest
        let lines := splitlines rest2
        .ok (if max_lines < lines.length then lines.drop (lines.length - max_lines) else lines)

/-- `read_latest_log_lines` (lines 299-331): the body with its enclosing
`except` handler, which prints and returns `[]` on any exception. -/
def read_latest_log_lines (f : FileState) (max_lines : Nat) : List (List Char) :=
  match read_latest_log_lines_body f max_lines with
  | .ok lines => lines
  | .error _ => []

/-! ### `get_progress_info` (lines 368-462)

The info dictionary is a record; the whole-function `except` can never fire
in the embedded fragment, and the empty dictionary returned for a missing
log or an empty tail is `none`.  The total-duration resolution of lines
400-441 (metadata file, then a `Duration:` header, then a
`Creating slideshow with ... seconds` line) is taken as an input parameter
`total_duration`: no claim under scrutiny depends on how it is resolved,
only on the value reaching lines 444-458. -/

/-- The dictionary built by `get_progress_info` when the tail is non-empty
(lines 444-458). -/
structure ProgressInfo where
  time : ℚ
  time_str : List Char
  total_duration : ℚ
  progress_percent : ℚ
deriving DecidableEq

/-- `get_progress_info` below the read (lines 375-460), over the tail lines:
an empty tail yields the empty dictionary (`none`); otherwise the time is
extracted by the reversed scan and the percentage computed. -/
def progress_info_lines (total_duration : ℚ) (recent_lines : List (List Char)) :
    Option ProgressInfo :=
  if recent_lines = [] then none
  else
    let ts := extractTime recent_lines
    some { time := ts.2, time_str := ts.1, total_duration := total_duration,
           progress_percent := progress_percent ts.2 total_duration }

/-- `get_progress_info` (lines 368-462): a missing log file returns the
empty dictionary at line 372 before any read. -/
def get_progress_info (total_duration : ℚ) (f : FileState) : Option ProgressInfo :=
  if f.present = false then none
  else progress_info_lines total_duration (read_latest_log_lines f 100)

/-! ### Completion detection in the poll loop (`display_progress`, lines 578-803)

One iteration of the `while True` loop, restricted to the state it mutates
and the observations it makes.  `PollObs` records what one iteration
observes: the liveness result, the output file's size (`none` when
`os.path.exists(output_file)` is false), and `progress_info.get('time', 0)`
— which is 0 both when the dictionary is empty and when no `time=` pattern
matched the tail.  The `find_output_file` re-targeting of lines 615-619 and
all rendering are omitted: they do not touch the completion state.  The
file system is sampled once per iteration (the source calls
`os.path.exists`/`getsize` several times in one iteration; a file changing
between those calls within a single iteration is not modelled). -/

/-- What one loop iteration observes. -/
structure PollObs where
  is_running : Bool
  output_size : Option Nat
  time_value : ℚ
deriving DecidableEq

/-- The mutable completion-tracking state of `display_progress`
(lines 598-601), in declaration order. -/
structure LoopState where
  last_progress_time : ℚ
  last_file_size : Nat
  size_unchanged_count : Nat
  time_unchanged_count : Nat
deriving DecidableEq

/-- Initial state (lines 598-601): all zero. -/
def initState : LoopState := { last_progress_time := 0, last_file_size := 0,
                               size_unchanged_count := 0, time_unchanged_count := 0 }

/-- The three `break`-with-completion sites of the loop. -/
inductive Verdict where
  | processEnded
  | timeStable
  | sizeStable
deriving DecidableEq

/-- Lines 708-717: the file-size stagnation check, entered after the time
check did not break.  When the file does not exist the counter is left
untouched; in every continuing branch `last_file_size` is then set to
`current_size` (line 717 sits outside the `if exists`). -/
def sizeCheck (s : LoopState) (current_size : Nat) (hasFile : Bool) :
    Verdict ⊕ LoopState :=
  if hasFile then
    if current_size = s.last_file_size ∧ 0 < current_size then
      if 5 ≤ s.size_unchanged_count + 1 then Sum.inl Verdict.sizeStable
      else Sum.inr { s with size_unchanged_count := s.size_unchanged_count + 1,
                            last_file_size := current_size }
    else Sum.inr { s with size_unchanged_count := 0, last_file_size := current_size }
  else Sum.inr { s with last_file_size := current_size }

/-- One iteration of the monitoring loop (lines 606-764), as a step of a
state machine: `inl` is a completion `break`, `inr` the state carried to
the next iteration.
Order as in the source: first the process-ended signal (lines 622-626,
which only fires when the file exists with more than 1024 bytes — a dead
process with a small or missing artifact falls through and keeps polling);
then the time-stagnation check (lines 697-705); then the size-stagnation
check (lines 708-717). -/
def display_progress_step (s : LoopState) (p : PollObs) : Verdict ⊕ LoopState :=
  if p.is_running = false ∧ 1024 < p.output_size.getD 0 then Sum.inl Verdict.processEnded
  else
    let current_size := p.output_size.getD 0
    if 0 < p.time_value ∧ p.time_value = s.last_progress_time then
      if 5 ≤ s.time_unchanged_count + 1 then Sum.inl Verdict.timeStable
      else sizeCheck { s with time_unchanged_count := s.time_unchanged_count + 1 }
             current_size p.output_size.isSome
    else
      sizeCheck { s with time_unchanged_count := 0, last_progress_time := p.time_value }
        current_size p.output_size.isSome

/-- The loop run over a finite sequence of iterations' observations:
`some v` when some iteration breaks with verdict `v`, `none` when the loop
is still polling after all of them (the `while True` has no other exit). -/
def display_progress_loop (s : LoopState) : List PollObs → Option Verdict
  | [] => none
  | p :: ps =>
    match display_progress_step s p with
    | Sum.inl v => some v
    | Sum.inr s2 => display_progress_loop s2 ps

/-! ### Liveness Tracker (`get_ffmpeg_processes`, lines 168-233)

The ambient system as the function can observe it through `tasklist`,
`os.kill(pid, 0)`, `ps -p <pid> -o comm=` and `ps aux`.  An `Option`-valued
field is `none` when the corresponding call raises (a dead pid for
`os.kill`, a failing subprocess for the others). -/

/-- One poll's view of the operating system. -/
structure SysEnv where
  isWindows : Bool
  tasklistPid : Int → Option (List Char)
  killOk : Int → Bool
  psComm : Int → Option (List Char)
  psAux : Option (List (List Char))
  tasklistFfmpeg : Option (List Char)

/-- `get_ffmpeg_processes` (lines 168-233).  The Python global `ffmpeg_pid`
is threaded explicitly: the argument is its value on entry, the second
component of the result its value on exit (it is only ever written by the
opportunistic adoption at lines 220-227).  Returns whether the job is
considered running.

With a known pid: on Windows, membership of `str(pid)` in the `tasklist`
output, `False` if `tasklist` raises; on Unix, `os.kill(pid, 0)` — if it
raises, `False` (lines 198-200); otherwise `ps -p pid -o comm=` — if the
name is obtained, whether it contains `"ffmpeg"` lowercased (line 193), and
if `ps` raises, `True` ("If ps fails but kill succeeded, assume it's our
process", lines 194-196).

With no known pid: on Windows, membership of `"ffmpeg.exe"` in a
`tasklist` listing; on Unix, the `ps aux` lines containing `"ffmpeg"` and
not `"grep"` (lines 216-217), adopting the pid column of the first such
line when parseable (lines 220-227).  Any raise in this fallback reaches
the outermost handler (lines 230-233) and returns `False`. -/
def get_ffmpeg_processes (env : SysEnv) (ffmpeg_pid : Option Int) :
    Bool × Option Int :=
  match ffmpeg_pid with
  | some pid =>
    if env.isWindows then
      match env.tasklistPid pid with
      | some output => (containsSub (toString pid).toList output, ffmpeg_pid)
      | none => (false, ffmpeg_pid)
    else
      if env.killOk pid then
        match env.psComm pid with
        | some process_name => (containsSub "ffmpeg".toList (lowerChars process_name), ffmpeg_pid)
        | none => (true, ffmpeg_pid)
      else (false, ffmpeg_pid)
  | none =>
    if env.isWindows then
      match env.tasklistFfmpeg with
      | some output => (containsSub "ffmpeg.exe".toList output, none)
      | none => (false, none)
    else
      match env.psAux with
      | none => (false, none)
      | some output_lines =>
        let ffmpeg_lines := output_lines.filter
          (fun line => containsSub "ffmpeg".toList line && !containsSub "grep".toList line)
        let newPid : Option Int :=
          match ffmpeg_lines with
          | [] => none
          | first_line :: _ =>
            match splitWs first_line with
            | _ :: pid_part :: _ => pyInt pid_part
            | _ => none
        (decide (ffmpeg_lines ≠ []), newPid)

/-- Value of the module global `ffmpeg_pid` when `display_progress` performs
its first liveness check, as a function of the parsed `--ffmpeg-pid`
argument.  The global is initialised to `None` at line 34;
`parse_arguments` (lines 72-122) stores the argument only in the returned
namespace, and `main` (lines 805-842) never copies `args.ffmpeg_pid` into
the global — no statement in the module assigns it outside the adoption at
line 225.  The supplied pid therefore never reaches the liveness check. -/
def ffmpeg_pid_at_first_check (_argsFfmpegPid : Option Int) : Option Int := none

/-! ### Exit signalling (`main`, lines 805-845, and `display_progress`)

`python3 monitor_encoding.py` exits with `sys.exit(main())`.
`setup_signal_handlers` (lines 142-158), whose SIGINT handler would exit
with status 130, is defined but never called anywhere in the module, so a
Ctrl+C raises `KeyboardInterrupt`; it is caught at line 798 inside
`display_progress` (or at line 837 in `main`), and both handlers return 0.
Normal completion returns 0 through `display_progress` (line 803); the
no-job-found check returns 1 (lines 824-828); an unhandled exception in
`main` returns 1 (lines 840-842). -/

/-- Terminal outcomes of a monitor run. -/
inductive RunOutcome where
  | completed
  | userInterrupt
  | noJobFound
  | unrecoverable
deriving DecidableEq

/-- The process exit status `main` produces for each outcome. -/
def monitorExitCode : RunOutcome → Nat
  | RunOutcome.completed => 0
  | RunOutcome.userInterrupt => 0
  | RunOutcome.noJobFound => 1
  | RunOutcome.unrecoverable => 1

/-- Exit status the SIGINT branch of the `signal_handler` closure inside
`setup_signal_handlers` would use (line 149) — dead code, since
`setup_signal_handlers` has no call site in the module. -/
def signal_handler_sigint_code : Nat := 130

/-! ### Concrete system environments used in the evaluations below -/

/-- Unix system in which no process id exists (`os.kill` raises for every
pid, `ps` subcommands fail) but the process table contains one unrelated
ffmpeg process line. -/
def envTableOnly : SysEnv :=
  { isWindows := false
    tasklistPid := fun _ => none
    killOk := fun _ => false
    psComm := fun _ => none
    psAux := some ["root 999 0.0 ffmpeg -i in.mp4 out.mp4".toList]
    tasklistFfmpeg := none }

/-- Unix system in which every pid exists but every `ps -p <pid> -o comm=`
query fails. -/
def envPsFails : SysEnv :=
  { isWindows := false
    tasklistPid := fun _ => none
    killOk := fun _ => true
    psComm := fun _ => none
    psAux := none
    tasklistFfmpeg := none }

/-- Unix system in which every pid exists and is named `bash`. -/
def envNameMismatch : SysEnv :=
  { isWindows := false
    tasklistPid := fun _ => none
    killOk := fun _ => true
    psComm := fun _ => some "bash".toList
    psAux := none
    tasklistFfmpeg := none }

/-- Windows system on which every `tasklist` invocation fails. -/
def envWinFails : SysEnv :=
  { isWindows := true
    tasklistPid := fun _ => none
    killOk := fun _ => false
    psComm := fun _ => none
    psAux := none
    tasklistFfmpeg := none }

/-! ### Helper lemmas -/

theorem firstSome_eq_none {α β : Type} (f : α → Option β) (xs : List α)
    (h : ∀ x ∈ xs, f x = none) : firstSome f xs = none := by
  induction xs with
  | nil => rfl
  | cons a as ih =>
    have ha := h a (List.mem_cons_self a as)
    simp only [firstSome, ha]
    exact ih fun x hx => h x (List.mem_cons_of_mem a hx)

theorem firstSome_append_none {α β : Type} (f : α → Option β) (xs ys : List α)
    (h : ∀ x ∈ xs, f x = none) : firstSome f (xs ++ ys) = firstSome f ys := by
  induction xs with
  | nil => rfl
  | cons a as ih =>
    have ha := h a (List.mem_cons_self a as)
    simp only [List.cons_append, firstSome, ha]
    exact ih fun x hx => h x (List.mem_cons_of_mem a hx)

/-! ### The claims -/

/-- C2: on every poll the Progress Estimator computes
`min 95 (100 * videoTime / totalDuration)` when both extracted video time
and total duration are positive, `min 10 (videoTime / 5)` when the video
time is positive but the duration is unresolved (the resolution of lines
400-441 leaves `total_duration ≤ 0`), and 0 when no positive video time is
known — and it never exceeds 95 for any inputs, including
`videoTime > totalDuration`. -/
theorem C2_progress_estimator :
    (∀ t d : ℚ, 0 < t → 0 < d → progress_percent t d = min 95 (100 * t / d)) ∧
    (∀ t d : ℚ, 0 < t → d ≤ 0 → progress_percent t d = min 10 (t / 5)) ∧
    (∀ t d : ℚ, t ≤ 0 → progress_percent t d = 0) ∧
    (∀ t d : ℚ, progress_percent t d ≤ 95) := by
  refine ⟨?_, ?_, ?_, ?_⟩
  · intro t d ht hd
    rw [progress_percent, if_pos ⟨ht, hd⟩]
    congr 1
    ring
  · intro t d ht hd
    rw [progress_percent, if_neg fun h => absurd h.2 (not_lt.mpr hd), if_pos ht]
  · intro t d ht
    rw [progress_percent, if_neg fun h => absurd h.1 (not_lt.mpr ht),
      if_neg (not_lt.mpr ht)]
  · intro t d
    rw [progress_percent]
    split_ifs
    · exact min_le_left _ _
    · exact le_trans (min_le_left _ _) (by norm_num)
    · norm_num

/-- C2 witness: the estimator at concrete inputs, among them a video time
exceeding the total duration, where the cap yields 95. -/
theorem C2_progress_estimator_witness :
    progress_percent 200 100 = min 95 (100 * 200 / 100) ∧
    progress_percent 3 0 = min 10 (3 / 5) ∧
    progress_percent 0 7 = 0 ∧
    progress_percent 200 100 ≤ 95 :=
  ⟨C2_progress_estimator.1 200 100 (by norm_num) (by norm_num),
   C2_progress_estimator.2.1 3 0 (by norm_num) le_rfl,
   C2_progress_estimator.2.2.1 0 7 le_rfl,
   C2_progress_estimator.2.2.2 200 100⟩

/-- C8: for every observable state of the log file and every line budget,
the Log Tail Reader returns a (possibly empty) list of lines and never
propagates an error: a missing file, a zero-byte file, and a file that
disappears between the size check and the read (any raising read) all
yield the empty list, as does any exception escaping the body. -/
theorem C8_tail_reader_never_fails :
    (∀ (f : FileState) (n : Nat), f.present = false →
       read_latest_log_lines f n = []) ∧
    (∀ (f : FileState) (n : Nat), f.size = 0 →
       read_latest_log_lines f n = []) ∧
    (∀ (f : FileState) (n : Nat), f.content = none →
       read_latest_log_lines f n = []) ∧
    (∀ (f : FileState) (n : Nat),
       read_latest_log_lines_body f n = Except.error () →
       read_latest_log_lines f n = []) := by
  refine ⟨?_, ?_, ?_, ?_⟩
  · intro f n h
    simp [read_latest_log_lines, read_latest_log_lines_body, h]
  · intro f n h
    by_cases hp : f.present = false <;>
      simp [read_latest_log_lines, read_latest_log_lines_body, h, hp]
  · intro f n h
    by_cases hp : f.present = false
    · simp [read_latest_log_lines, read_latest_log_lines_body, hp]
    · by_cases hz : f.size = 0 <;>
        simp [read_latest_log_lines, read_latest_log_lines_body, h, hp, hz]
  · intro f n h
    rw [read_latest_log_lines, h]

/-- C8 witness: concrete missing, empty, and vanishing files all give the
empty tail. -/
theorem C8_tail_reader_never_fails_witness :
    read_latest_log_lines { present := false, size := 0, content := none } 500 = [] ∧
    read_latest_log_lines { present := true, size := 0, content := some [] } 500 = [] ∧
    read_latest_log_lines { present := true, size := 9, content := none } 500 = [] :=
  ⟨C8_tail_reader_never_fails.1 _ 500 rfl,
   C8_tail_reader_never_fails.2.1 _ 500 rfl,
   C8_tail_reader_never_fails.2.2.1 _ 500 rfl⟩

/-- C9: the claim asks for pairwise distinct exit codes for normal
completion, user-initiated stop and no-job-found.  The code disagrees:
`setup_signal_handlers` (which would exit 130 on SIGINT) is never called,
so Ctrl+C raises `KeyboardInterrupt`, which `display_progress` (line 798)
and `main` (line 837) both catch and turn into return value 0 — exactly the
code of normal completion.  Only no-job-found (1) is distinct.  This
evaluates the exit-code map at the colliding outcomes. -/
theorem C9_exit_codes_collide :
    monitorExitCode RunOutcome.completed = monitorExitCode RunOutcome.userInterrupt ∧
    monitorExitCode RunOutcome.completed = 0 ∧
    monitorExitCode RunOutcome.noJobFound = 1 ∧
    signal_handler_sigint_code ≠ monitorExitCode RunOutcome.userInterrupt := by
  refine ⟨rfl, rfl, rfl, by decide⟩

/-- C3: when the tail contains an occurrence of a tracked metric, the
extractor returns the value of the last (most recent) occurrence, whatever
the earlier occurrences are: the scans run over `reversed(recent_lines)`
and stop at the first line that yields the metric.  An occurrence is what
the scan itself accepts from a single line: for the speed, a line whose
`speed=` fragment parses to a number (a line whose fragment fails `float()`
is skipped by the `continue` at lines 353/362); for the time, a line
matched by the `time=` regex (kept even when its numeric parse fails, in
which case the extracted seconds are 0 — the `break` at line 398 fires
regardless). -/
theorem C3_last_occurrence_wins :
    (∀ (pre post : List (List Char)) (l : List Char) (v : ℚ),
       extractSpeedLine l = some v →
       (∀ l2 ∈ post, extractSpeedLine l2 = none) →
       get_encoding_speed_lines (pre ++ l :: post) = v) ∧
    (∀ (pre post : List (List Char)) (l : List Char) (r : List Char × ℚ),
       extractTimeLine l = some r →
       (∀ l2 ∈ post, extractTimeLine l2 = none) →
       extractTime (pre ++ l :: post) = r) := by
  constructor
  · intro pre post l v hl hpost
    have hrev : (pre ++ l :: post).reverse = post.reverse ++ (l :: pre.reverse) := by
      simp
    have hnone : ∀ x ∈ post.reverse, extractSpeedLine x = none := by
      intro x hx
      exact hpost x (List.mem_reverse.mp hx)
    rw [get_encoding_speed_lines, hrev,
      firstSome_append_none _ _ _ hnone]
    simp [firstSome, hl]
  · intro pre post l r hl hpost
    have hrev : (pre ++ l :: post).reverse = post.reverse ++ (l :: pre.reverse) := by
      simp
    have hnone : ∀ x ∈ post.reverse, extractTimeLine x = none := by
      intro x hx
      exact hpost x (List.mem_reverse.mp hx)
    rw [extractTime, hrev, firstSome_append_none _ _ _ hnone]
    simp [firstSome, hl]

/-- C3 witness: two-line tails whose two occurrences disagree; the more
recent one wins for both metrics. -/
theorem C3_last_occurrence_wins_witness :
    get_encoding_speed_lines ["speed=1.0x".toList, "speed=2.5x".toList] = 5 / 2 ∧
    extractTime ["time=0:0:1 b".toList, "time=0:1:2.5 b".toList] =
      ("0:1:2.5".toList, 125 / 2) :=
  ⟨C3_last_occurrence_wins.1 ["speed=1.0x".toList] [] "speed=2.5x".toList (5 / 2)
     (by decide) (by simp),
   C3_last_occurrence_wins.2 ["time=0:0:1 b".toList] [] "time=0:1:2.5 b".toList
     ("0:1:2.5".toList, 125 / 2) (by decide) (by simp)⟩

/-- C5 counterexample: a non-empty tail with no parseable occurrence of
either metric.  The claim says the video-time field is then absent (not
0 / `"00:00:00"`) and the throughput multiplier unknown (not 0); the code
instead builds the dictionary with `time = 0`, `time_str = "00:00:00"`
(lines 380-381 initialise exactly these sentinels and no match overwrites
them, line 444-448 stores them), and `get_encoding_speed` returns the
number 0 (lines 339/364). -/
theorem C5_counterexample :
    progress_info_lines 0 ["frame=10".toList] =
      some { time := 0, time_str := "00:00:00".toList, total_duration := 0,
             progress_percent := 0 } ∧
    get_encoding_speed_lines ["frame=10".toList] = 0 := by
  constructor
  · decide
  · decide

/-- C5 as amended: when no occurrence of a metric parses, the extractor
returns zero sentinels rather than absent fields — `0` for the speed and a
present `time = 0` with text `"00:00:00"` for the video time; the fields
are absent (empty dictionary) only when the log file is missing or the
tail is empty.  (The poll loop and the renderer treat these sentinel
zeroes as unknown downstream, via `> 0` and key-presence checks at lines
642-648, 652, 697.) -/
theorem C5_zero_sentinels :
    (∀ (td : ℚ) (f : FileState), f.present = false →
       get_progress_info td f = none) ∧
    (∀ td : ℚ, progress_info_lines td [] = none) ∧
    (∀ (td : ℚ) (lines : List (List Char)), lines ≠ [] →
       (∀ l ∈ lines, extractTimeLine l = none) →
       progress_info_lines td lines =
         some { time := 0, time_str := "00:00:00".toList, total_duration := td,
                progress_percent := 0 }) ∧
    (∀ lines : List (List Char), (∀ l ∈ lines, extractSpeedLine l = none) →
       get_encoding_speed_lines lines = 0) := by
  refine ⟨?_, ?_, ?_, ?_⟩
  · intro td f h
    simp [get_progress_info, h]
  · intro td
    simp [progress_info_lines]
  · intro td lines hne h
    have hnone : ∀ x ∈ lines.reverse, extractTimeLine x = none := by
      intro x hx
      exact h x (List.mem_reverse.mp hx)
    have hext : extractTime lines = ("00:00:00".toList, 0) := by
      rw [extractTime, firstSome_eq_none _ _ hnone]
    rw [progress_info_lines, if_neg hne, hext]
    have hpp : progress_percent 0 td = 0 := by
      rw [progress_percent, if_neg (fun hc => lt_irrefl 0 hc.1), if_neg (lt_irrefl 0)]
    simp [hpp]
  · intro lines h
    have hnone : ∀ x ∈ lines.reverse, extractSpeedLine x = none := by
      intro x hx
      exact h x (List.mem_reverse.mp hx)
    rw [get_encoding_speed_lines, firstSome_eq_none _ _ hnone]

/-- C5 amended witness: a missing log gives the empty dictionary; a
one-line tail without metrics gives the zero sentinels. -/
theorem C5_zero_sentinels_witness :
    get_progress_info 4 { present := false, size := 0, content := none } = none ∧
    progress_info_lines 4 ["hello".toList] =
      some { time := 0, time_str := "00:00:00".toList, total_duration := 4,
             progress_percent := 0 } ∧
    get_encoding_speed_lines ["hello".toList] = 0 :=
  ⟨C5_zero_sentinels.1 4 _ rfl,
   C5_zero_sentinels.2.2.1 4 ["hello".toList] (by decide) (by decide),
   C5_zero_sentinels.2.2.2 ["hello".toList] (by decide)⟩

/-- C4 counterexample: the claim says a transient parse failure never
resets a stagnation counter.  Concretely: the state has recorded a last
positive video time of 7 with three consecutive unchanged polls, and the
next poll's tail yields no parseable time (`progress_info.get('time', 0)`
is 0) while the output file is momentarily missing.  The step resets the
time-stagnation counter from 3 to 0 (and records 0 as the last time),
because the `else` of lines 703-705 runs whenever the extracted value is
not positive, not only on a changed reading. -/
theorem C4_counterexample :
    display_progress_step
      { last_progress_time := 7, last_file_size := 0, size_unchanged_count := 0,
        time_unchanged_count := 3 }
      { is_running := true, output_size := none, time_value := 0 } =
    Sum.inr
      { last_progress_time := 0, last_file_size := 0, size_unchanged_count := 0,
        time_unchanged_count := 0 } ∧ (3 : Nat) ≠ 0 := by
  constructor
  · decide
  · decide

/-- C4 as amended.  Size counter: a poll on which the output file is
missing leaves the size-stagnation counter untouched (the `if exists`
of line 708 guards both the increment and the reset), and the counter is
reset only on a poll where the file exists and the observed size is zero
or differs from the last recorded size.  Time counter: unlike what the
claim states, any poll whose extracted time value is 0 — in particular a
transient parse failure — resets the time-stagnation counter to zero and
records 0 as the last time, so a momentary log dropout does restart the
time-stagnation debounce. -/
theorem C4_stagnation_reset_discipline :
    (∀ (s : LoopState) (p : PollObs) (s2 : LoopState), p.output_size = none →
       display_progress_step s p = Sum.inr s2 →
       s2.size_unchanged_count = s.size_unchanged_count) ∧
    (∀ (s : LoopState) (p : PollObs) (s2 : LoopState),
       display_progress_step s p = Sum.inr s2 →
       s2.size_unchanged_count = 0 → s.size_unchanged_count ≠ 0 →
       p.output_size.isSome = true ∧
         (p.output_size.getD 0 = 0 ∨ p.output_size.getD 0 ≠ s.last_file_size)) ∧
    (∀ (s : LoopState) (p : PollObs) (s2 : LoopState), p.time_value = 0 →
       display_progress_step s p = Sum.inr s2 →
       s2.time_unchanged_count = 0 ∧ s2.last_progress_time = 0) := by
  refine ⟨?_, ?_, ?_⟩
  · intro s p s2 hnone h
    simp only [display_progress_step, sizeCheck, hnone, Option.getD_none,
      Option.isSome_none, Bool.false_eq_true, if_false] at h
    split_ifs at h with h1 h2 h3
    all_goals simp only [Sum.inr.injEq] at h
    all_goals subst h
    all_goals rfl
  · intro s p s2 h h0 hne
    rcases hp : p.output_size with _ | n
    · have hpres : s2.size_unchanged_count = s.size_unchanged_count := by
        simp only [display_progress_step, sizeCheck, hp, Option.getD_none,
          Option.isSome_none, Bool.false_eq_true, if_false] at h
        split_ifs at h with h1 h2 h3
        all_goals simp only [Sum.inr.injEq] at h
        all_goals subst h
        all_goals rfl
      exact absurd (hpres ▸ h0) hne
    · refine ⟨rfl, ?_⟩
      simp only [display_progress_step, sizeCheck, hp, Option.getD_some,
        Option.isSome_some, if_true] at h
      simp only [Option.getD_some]
      split_ifs at h with h1 h2 h3 h4 h5 h6 h7
      all_goals simp only [Sum.inr.injEq] at h
      all_goals subst h
      all_goals dsimp only at h0
      all_goals omega
  · intro s p s2 ht h
    simp only [display_progress_step, sizeCheck, ht] at h
    have hz : ¬((0 : ℚ) < 0 ∧ (0 : ℚ) = s.last_progress_time) := by
      intro hc
      exact lt_irrefl 0 hc.1
    rw [if_neg hz] at h
    split_ifs at h with h1 h2 h3
    all_goals simp only [Sum.inr.injEq] at h
    all_goals subst h
    all_goals exact ⟨rfl, rfl⟩

/-- C4 witness: the three parts applied at concrete polls — a file-missing
poll preserving the size counter, a changed-size poll resetting it, and a
zero-time poll zeroing the time tracking. -/
theorem C4_stagnation_reset_discipline_witness :
    (LoopState.mk 3 0 2 0).size_unchanged_count = (LoopState.mk 1 5 2 0).size_unchanged_count ∧
    ((Option.some 20).isSome = true ∧
       ((Option.some 20).getD 0 = 0 ∨
          (Option.some 20).getD 0 ≠ (LoopState.mk 0 10 3 0).last_file_size)) ∧
    ((LoopState.mk 0 0 0 0).time_unchanged_count = 0 ∧
       (LoopState.mk 0 0 0 0).last_progress_time = 0) :=
  ⟨C4_stagnation_reset_discipline.1 ⟨1, 5, 2, 0⟩ ⟨true, none, 3⟩ ⟨3, 0, 2, 0⟩ rfl (by decide),
   C4_stagnation_reset_discipline.2.1 ⟨0, 10, 3, 0⟩ ⟨true, some 20, 0⟩ ⟨0, 20, 0, 0⟩
     (by decide) rfl (by decide),
   C4_stagnation_reset_discipline.2.2 ⟨7, 0, 0, 3⟩ ⟨true, none, 0⟩ ⟨0, 0, 0, 0⟩ rfl (by decide)⟩

/-- C1 counterexample: the claim's "in particular" scenario at its stated
length.  From the monitor's start, an alive process and an output file
fixed at 10 MB for 5 consecutive polls do NOT produce a verdict: the first
poll records the size (a change from the initial 0), so only 4 unchanged
readings accumulate, and `size_unchanged_count >= 5` (line 711) is not
reached.  The loop is still polling after those 5 iterations. -/
theorem C1_counterexample :
    display_progress_loop initState
      (List.replicate 5
        { is_running := true, output_size := some 10485760, time_value := 0 }) =
      none := by
  decide

/-- C1 as amended.  First part: the step declares completion exactly when
one of the three signals fires — (1) liveness false and the output file
above 1024 bytes; (2) a positive extracted time equal to the recorded last
time with 4 prior consecutive unchanged polls (the increment then reaches
the threshold 5); (3) a positive observed size equal to the recorded last
size with 4 prior consecutive unchanged polls.  Second part: the size
signal alone completes a fresh run whose file holds a fixed positive size
while the process stays alive — after 6 consecutive such polls (the first
records the size; the next 5 are the unchanged readings), not after the
claim's 5. -/
theorem C1_completion_signals :
    (∀ (s : LoopState) (p : PollObs),
       (display_progress_step s p).isLeft = true ↔
         ((p.is_running = false ∧ 1024 < p.output_size.getD 0) ∨
          (0 < p.time_value ∧ p.time_value = s.last_progress_time ∧
             4 ≤ s.time_unchanged_count) ∨
          (0 < p.output_size.getD 0 ∧ p.output_size.getD 0 = s.last_file_size ∧
             4 ≤ s.size_unchanged_count))) ∧
    (∀ S : Nat, 0 < S →
       display_progress_loop initState
         (List.replicate 6 { is_running := true, output_size := some S, time_value := 0 }) =
         some Verdict.sizeStable) := by
  constructor
  · intro s p
    rcases hp : p.output_size with _ | n
    · simp only [display_progress_step, sizeCheck, hp, Option.getD_none,
        Option.isSome_none, Bool.false_eq_true, if_false]
      split_ifs with h1 h2 h3
      · exact absurd h1.2 (by omega)
      · exact iff_of_true rfl (Or.inr (Or.inl ⟨h2.1, h2.2, by omega⟩))
      · refine iff_of_false (by simp) ?_
        rintro (⟨-, hlt⟩ | ⟨-, -, hc⟩ | ⟨hlt, -, -⟩)
        · exact absurd hlt (by omega)
        · exact absurd hc (by omega)
        · exact absurd hlt (by omega)
      · refine iff_of_false (by simp) ?_
        rintro (⟨-, hlt⟩ | ⟨ha, hb, -⟩ | ⟨hlt, -, -⟩)
        · exact absurd hlt (by omega)
        · exact h2 ⟨ha, hb⟩
        · exact absurd hlt (by omega)
    · simp only [display_progress_step, sizeCheck, hp, Option.getD_some,
        Option.isSome_some, if_true]
      split_ifs with h1 h2 h3 h4 h5 h6 h7
      · exact iff_of_true rfl (Or.inl h1)
      · exact iff_of_true rfl (Or.inr (Or.inl ⟨h2.1, h2.2, by omega⟩))
      · exact iff_of_true rfl (Or.inr (Or.inr ⟨h4.2, h4.1, by omega⟩))
      · refine iff_of_false (by simp) ?_
        rintro (hs1 | ⟨-, -, hc⟩ | ⟨-, -, hc⟩)
        · exact h1 hs1
        · exact absurd hc (by omega)
        · exact absurd hc (by omega)
      · refine iff_of_false (by simp) ?_
        rintro (hs1 | ⟨-, -, hc⟩ | ⟨ha, hb, -⟩)
        · exact h1 hs1
        · exact absurd hc (by omega)
        · exact h4 ⟨hb, ha⟩
      · exact iff_of_true rfl (Or.inr (Or.inr ⟨h6.2, h6.1, by omega⟩))
      · refine iff_of_false (by simp) ?_
        rintro (hs1 | ⟨ha, hb, -⟩ | ⟨-, -, hc⟩)
        · exact h1 hs1
        · exact h2 ⟨ha, hb⟩
        · exact absurd hc (by omega)
      · refine iff_of_false (by simp) ?_
        rintro (hs1 | ⟨ha, hb, -⟩ | ⟨ha, hb, -⟩)
        · exact h1 hs1
        · exact h2 ⟨ha, hb⟩
        · exact h6 ⟨hb, ha⟩
  · intro S hS
    have hne : S ≠ 0 := Nat.pos_iff_ne_zero.mp hS
    simp [display_progress_loop, display_progress_step, sizeCheck, initState,
      List.replicate_succ, hS, hne]

/-- C1 witness: the amended scenario at 10 MB — six polls at a fixed
positive size with the process alive complete via the size signal. -/
theorem C1_completion_signals_witness :
    display_progress_loop initState
      (List.replicate 6
        { is_running := true, output_size := some 10485760, time_value := 0 }) =
      some Verdict.sizeStable :=
  C1_completion_signals.2 10485760 (by decide)

/-- Helper for C10: a poll with a dead process, an artifact of at most
1024 bytes that is never positive, and no positive extracted time can
never break the loop — every completion site needs more. -/
theorem step_continues_when_starved (s : LoopState) (p : PollObs)
    (_hrun : p.is_running = false) (hsize : p.output_size.getD 0 ≤ 1024)
    (hpos : ¬0 < p.output_size.getD 0) (ht : ¬0 < p.time_value) :
    ∃ s2, display_progress_step s p = Sum.inr s2 := by
  rw [display_progress_step, if_neg (fun hc => absurd hc.2 (by omega))]
  rw [if_neg (fun hc => ht hc.1)]
  rw [sizeCheck]
  split_ifs with h1 h2 h3
  · exact absurd h2.2 hpos
  · exact absurd h2.2 hpos
  · exact ⟨_, rfl⟩
  · exact ⟨_, rfl⟩

/-- Helper for C10: from any state, a run of only starved polls never
produces a verdict. -/
theorem loop_none_when_starved (polls : List PollObs) :
    ∀ s : LoopState,
      (∀ p ∈ polls, p.is_running = false ∧ p.output_size.getD 0 ≤ 1024 ∧
         ¬0 < p.output_size.getD 0 ∧ ¬0 < p.time_value) →
      display_progress_loop s polls = none := by
  induction polls with
  | nil => intro s _; rfl
  | cons p ps ih =>
    intro s h
    obtain ⟨hrun, hsize, hpos, ht⟩ := h p (List.mem_cons_self p ps)
    obtain ⟨s2, hstep⟩ := step_continues_when_starved s p hrun hsize hpos ht
    simp only [display_progress_loop, hstep]
    exact ih s2 fun q hq => h q (List.mem_cons_of_mem p hq)

/-- C10: when on every poll the encoder is not running, the output file is
absent or at most 1024 bytes, its size is never positive, and no positive
video time is ever extracted, the loop reaches no completion verdict after
any number of polls — signal 1 needs more than 1024 bytes (line 623),
signal 2 a positive time (line 697), signal 3 a positive size (line 709) —
and since `while True` (line 606) has no timeout or give-up branch, the
monitor polls forever until externally cancelled. -/
theorem C10_starved_job_monitored_forever :
    ∀ polls : List PollObs,
      (∀ p ∈ polls, p.is_running = false ∧ p.output_size.getD 0 ≤ 1024 ∧
         ¬0 < p.output_size.getD 0 ∧ ¬0 < p.time_value) →
      display_progress_loop initState polls = none := fun polls h =>
  loop_none_when_starved polls initState h

/-- C10 witness: two starved polls — missing file, then an empty file —
leave the loop still polling. -/
theorem C10_starved_job_monitored_forever_witness :
    display_progress_loop initState
      [{ is_running := false, output_size := none, time_value := 0 },
       { is_running := false, output_size := some 0, time_value := 0 }] = none :=
  C10_starved_job_monitored_forever
    [⟨false, none, 0⟩, ⟨false, some 0, 0⟩] (by decide)

/-- C6: the claim says a supplied `--ffmpeg-pid` makes every liveness
check examine only that id.  The code parses the argument (line 94) but
never stores it in the module global `ffmpeg_pid` that
`get_ffmpeg_processes` consults, so the first liveness check still runs
with no known pid and performs the full `ps aux` table scan.  Evaluated
at the failing input: `--ffmpeg-pid 12345` with pid 12345 dead and one
unrelated ffmpeg line in the table — the monitor reports the job alive
(and adopts pid 999), whereas examining only pid 12345 as claimed would
report not-alive (third conjunct). -/
theorem C6_supplied_pid_ignored :
    ffmpeg_pid_at_first_check (some 12345) = none ∧
    get_ffmpeg_processes envTableOnly (ffmpeg_pid_at_first_check (some 12345)) =
      (true, some 999) ∧
    (get_ffmpeg_processes envTableOnly (some 12345)).1 = false := by
  refine ⟨rfl, by decide, by decide⟩

/-- C7 counterexample: a probe error resolved toward "alive".  On a pid
whose `os.kill(pid, 0)` succeeds but whose `ps -p pid -o comm=` query
fails, the bare `except` of lines 194-196 returns `True` ("If ps fails
but kill succeeded, assume it's our process") — the claim says every
probe error yields not-alive. -/
theorem C7_counterexample :
    (get_ffmpeg_processes envPsFails (some 42)).1 = true := by
  decide

/-- C7 as amended: with a known pid, a non-existent pid (raising
`os.kill`) yields not-alive; an obtained process name not containing
`ffmpeg` yields not-alive; a failing Windows `tasklist` yields not-alive;
and with no known pid, a failing `ps aux` or `tasklist` scan — an error
reaching the outermost handler of lines 230-233 — also yields not-alive;
but when the pid exists and the Unix name query fails, the tracker
resolves the error toward "alive" (lines 194-196), so one probe-error
path — and only that one — is resolved optimistically. -/
theorem C7_liveness_error_paths :
    (∀ (env : SysEnv) (pid : Int), env.isWindows = false → env.killOk pid = false →
       (get_ffmpeg_processes env (some pid)).1 = false) ∧
    (∀ (env : SysEnv) (pid : Int) (name : List Char), env.isWindows = false →
       env.killOk pid = true → env.psComm pid = some name →
       containsSub "ffmpeg".toList (lowerChars name) = false →
       (get_ffmpeg_processes env (some pid)).1 = false) ∧
    (∀ (env : SysEnv) (pid : Int), env.isWindows = true →
       env.tasklistPid pid = none →
       (get_ffmpeg_processes env (some pid)).1 = false) ∧
    (∀ env : SysEnv, env.isWindows = false → env.psAux = none →
       (get_ffmpeg_processes env none).1 = false) ∧
    (∀ env : SysEnv, env.isWindows = true → env.tasklistFfmpeg = none →
       (get_ffmpeg_processes env none).1 = false) ∧
    (∀ (env : SysEnv) (pid : Int), env.isWindows = false →
       env.killOk pid = true → env.psComm pid = none →
       (get_ffmpeg_processes env (some pid)).1 = true) := by
  refine ⟨?_, ?_, ?_, ?_, ?_, ?_⟩
  · intro env pid hw hk
    simp [get_ffmpeg_processes, hw, hk]
  · intro env pid name hw hk hc hn
    simp only [get_ffmpeg_processes, hw, hk, hc]
    simpa using hn
  · intro env pid hw ht
    simp [get_ffmpeg_processes, hw, ht]
  · intro env hw ha
    simp [get_ffmpeg_processes, hw, ha]
  · intro env hw ht
    simp [get_ffmpeg_processes, hw, ht]
  · intro env pid hw hk hc
    simp [get_ffmpeg_processes, hw, hk, hc]

/-- C7 witness: the six paths at concrete environments — dead pid, pid
named `bash`, failing per-pid `tasklist`, failing no-pid `ps aux` scan,
failing no-pid `tasklist` scan, and the optimistic ps-failure path. -/
theorem C7_liveness_error_paths_witness :
    (get_ffmpeg_processes envTableOnly (some 5)).1 = false ∧
    (get_ffmpeg_processes envNameMismatch (some 7)).1 = false ∧
    (get_ffmpeg_processes envWinFails (some 8)).1 = false ∧
    (get_ffmpeg_processes envPsFails none).1 = false ∧
    (get_ffmpeg_processes envWinFails none).1 = false ∧
    (get_ffmpeg_processes envPsFails (some 42)).1 = true :=
  ⟨C7_liveness_error_paths.1 envTableOnly 5 rfl rfl,
   C7_liveness_error_paths.2.1 envNameMismatch 7 "bash".toList rfl rfl rfl (by decide),
   C7_liveness_error_paths.2.2.1 envWinFails 8 rfl rfl,
   C7_liveness_error_paths.2.2.2.1 envPsFails rfl rfl,
   C7_liveness_error_paths.2.2.2.2.1 envWinFails rfl rfl,
   C7_liveness_error_paths.2.2.2.2.2 envPsFails 42 rfl rfl rfl⟩
